import Mathlib

/-!
Shallow embedding of the joint-plot composition logic of
`cosilico/base/scatter.py` (`jointplot` and `clean_jointplot`), together
with theorems checking the natural-language specification against it.

Cell values are numeric (exact rationals standing for Python floats) or
strings; a dataframe is a list of named columns.  The altair chart value
returned by the composers is embedded as a tree of layout nodes whose
leaves carry the declarative configuration the source passes to altair
(scales, axis kwargs, density-transform kwargs, bin kwargs, mark kwargs).
Failures that the Python code produces by raising (max() of an empty
column, arithmetic on non-numeric values, missing column lookup) are
embedded as `Except` errors.
-/

set_option linter.unusedVariables false

namespace Cosilico

/-- A cell value of a dataframe column: a number or a string. -/
inductive Value where
  | num (q : ℚ)
  | str (s : String)
deriving DecidableEq, Repr

/-- A dataframe column is the list of its cell values. -/
abbrev Column := List Value

/-- A dataframe: named columns, in order. -/
structure DataFrame where
  cols : List (String × Column)
deriving DecidableEq, Repr

/-- Errors the composers signal (in the source: KeyError on missing column,
ValueError from `max()` on an empty column, TypeError from comparing or
subtracting non-numeric values). -/
inductive JointError where
  | missingColumn
  | emptyDataset
  | nonNumericColumn
deriving DecidableEq, Repr

/-- Decidable equality of `Except` results, for evaluating the embedding on
concrete inputs. -/
instance {ε α : Type} [DecidableEq ε] [DecidableEq α] :
    DecidableEq (Except ε α)
  | .error e, .error f =>
    if h : e = f then .isTrue (by rw [h])
    else .isFalse (by intro hh; cases hh; exact h rfl)
  | .error e, .ok b => .isFalse (by intro h; cases h)
  | .ok a, .error f => .isFalse (by intro h; cases h)
  | .ok a, .ok b =>
    if h : a = b then .isTrue (by rw [h])
    else .isFalse (by intro hh; cases hh; exact h rfl)

/-- Numeric reading of a cell; strings are not numbers. -/
def Value.toNum : Value → Option ℚ
  | .num q => some q
  | .str _ => none

/-- Column lookup, `data[x]` in the source. -/
def lookupCol (df : DataFrame) (name : String) : Except JointError Column :=
  match df.cols.lookup name with
  | some c => .ok c
  | none => .error .missingColumn

/-- All values of a column read as numbers, or `none` if any value is
non-numeric (cannot be coerced to floating point). -/
def colNums : Column → Option (List ℚ)
  | [] => some []
  | v :: vs =>
    match v.toNum, colNums vs with
    | some q, some qs => some (q :: qs)
    | _, _ => none

/-- `min()` over a list, `none` on empty (Python raises ValueError there). -/
def listMin : List ℚ → Option ℚ
  | [] => none
  | q :: qs => some (qs.foldl min q)

/-- `max()` over a list, `none` on empty (Python raises ValueError there). -/
def listMax : List ℚ → Option ℚ
  | [] => none
  | q :: qs => some (qs.foldl max q)

/-- `(min(col), max(col))` as the source computes them: fails on a column
with non-numeric values (TypeError) and on an empty column (ValueError). -/
def colBounds (col : Column) : Except JointError (ℚ × ℚ) :=
  match colNums col with
  | none => .error .nonNumericColumn
  | some qs =>
    match listMin qs, listMax qs with
    | some mn, some mx => .ok (mn, mx)
    | _, _ => .error .emptyDataset

/-- Whether every value of a column can be coerced to a number. -/
def Column.coercible (c : Column) : Bool := (colNums c).isSome

/-- Number of rows of a dataframe (length of its first column; 0 if no
columns). -/
def DataFrame.nrows (df : DataFrame) : ℕ :=
  match df.cols with
  | [] => 0
  | c :: _ => c.2.length

/-- All columns have the same length (pandas invariant). -/
def DataFrame.uniform (df : DataFrame) : Bool :=
  df.cols.all (fun c => c.2.length == df.nrows)

/-- The padded axis domain of the source:
`(min - (max - min) * padding_scalar, max + (max - min) * padding_scalar)`. -/
def paddedDomain (mn mx p : ℚ) : ℚ × ℚ :=
  (mn - (mx - mn) * p, mx + (mx - mn) * p)

/-- `alt.Scale(domain=...)`. -/
structure Scale where
  domain : ℚ × ℚ
deriving DecidableEq, Repr

/-- `alt.Axis(...)` kwargs the source uses, with altair/vega defaults for
the fields a call site leaves unset (labels shown, ticks opaque, axis
domain line drawn, grid drawn). -/
structure AxisConfig where
  labels : Bool := true
  tickOpacity : ℚ := 1
  domainLine : Bool := true
  grid : Bool := true
deriving DecidableEq, Repr

/-- The kwargs of `transform_density(...)`. -/
structure DensityCfg where
  density : String
  bandwidth : ℚ
  counts : Bool
  extent : ℚ × ℚ
  steps : ℕ
  groupby : Option (List String) := none
deriving DecidableEq, Repr

/-- The kwargs of `alt.Bin(...)`. -/
structure BinCfg where
  maxbins : ℕ
  extent : ℚ × ℚ
deriving DecidableEq, Repr

/-- The main scatter layer: `chart.mark_circle().encode(alt.X(x, scale=xscale),
alt.Y(y, scale=yscale), **mark_kwargs)`.  No axis kwargs are passed, so both
axes carry the renderer's default configuration. -/
structure PointsLayer where
  x : String
  xscale : Scale
  y : String
  yscale : Scale
  xaxis : AxisConfig := {}
  yaxis : AxisConfig := {}
  colorField : Option String := none
deriving DecidableEq, Repr

/-- A marginal density line of `clean_jointplot`: the density transform plus
`mark_line(opacity=...)` and its encodings. -/
structure LineLayer where
  cfg : DensityCfg
  markOpacity : ℚ
  valueScale : Scale
  valueAxis : AxisConfig
  densityAxis : AxisConfig
  colorField : Option String := none
  orderField : Option String := none
  height : Option ℤ := none
  width : Option ℤ := none
deriving DecidableEq, Repr

/-- A marginal histogram of `jointplot`: `mark_area(opacity, interpolate)`
encoding the binned field against `count()`. -/
structure HistLayer where
  field : String
  bin : BinCfg
  binAxis : AxisConfig
  countAxis : AxisConfig := {}
  markOpacity : ℚ
  interpolate : String
  colorField : Option String := none
  height : Option ℤ := none
  width : Option ℤ := none
deriving DecidableEq, Repr

/-- A leaf chart layer. -/
inductive Layer where
  | points (pl : PointsLayer)
  | densityLine (l : LineLayer)
  | histArea (h : HistLayer)
deriving DecidableEq, Repr

/-- The composed chart tree: leaves are layers, internal nodes are
`alt.vconcat`/`alt.hconcat` (`&`/`|` carry no explicit spacing: `none`). -/
inductive Layout where
  | leaf (l : Layer)
  | vconcat (top bottom : Layout) (spacing : Option ℤ)
  | hconcat (left right : Layout) (spacing : Option ℤ)
deriving DecidableEq, Repr

/-- The value `clean_jointplot` returns: the layout plus the optional
top-level `configure_view(strokeWidth=...)`. -/
structure Chart where
  layout : Layout
  configureViewStrokeWidth : Option ℚ := none
deriving DecidableEq, Repr

/-- Lines 128-174 of the source: build the scatter layer, the two marginal
histograms, and concatenate per `show_x`/`show_y`, given the (min, max)
bounds of the two columns. -/
def jointCombined (x y : String) (hue : Option String) (show_x show_y : Bool)
    (opacity padding_scalar : ℚ) (maxbins : ℕ) (hist_height : ℤ)
    (bdsX bdsY : ℚ × ℚ) : Layout :=
  let xscale : Scale := ⟨paddedDomain bdsX.1 bdsX.2 padding_scalar⟩
  let yscale : Scale := ⟨paddedDomain bdsY.1 bdsY.2 padding_scalar⟩
  let hueChannel : Option String := hue.map (fun hn => hn ++ ":N")
  let points : Layer := .points
    { x := x, xscale := xscale, y := y, yscale := yscale, colorField := hueChannel }
  let histAxis : AxisConfig := { labels := false, tickOpacity := 0 }
  let top_hist : Layer := .histArea
    { field := x, bin := { maxbins := maxbins, extent := xscale.domain },
      binAxis := histAxis, markOpacity := opacity, interpolate := "step",
      colorField := hueChannel, height := some hist_height }
  let right_hist : Layer := .histArea
    { field := y, bin := { maxbins := maxbins, extent := yscale.domain },
      binAxis := histAxis, markOpacity := opacity, interpolate := "step",
      colorField := hueChannel, width := some hist_height }
  if show_x && show_y then
    .vconcat (.leaf top_hist) (.hconcat (.leaf points) (.leaf right_hist) none) none
  else if show_x && !show_y then
    .vconcat (.leaf top_hist) (.leaf points) none
  else if !show_x && show_y then
    .hconcat (.leaf points) (.leaf right_hist) none
  else
    .leaf points

/-- `jointplot` (scatter.py lines 72-174).  The `color` parameter appears in
the source signature and docstring but is never read by the body. -/
def jointplot (x y : String) (data : DataFrame) (hue : Option String)
    (color : Option String) (show_x show_y : Bool)
    (opacity padding_scalar : ℚ) (maxbins : ℕ) (hist_height : ℤ) :
    Except JointError Layout :=
  match lookupCol data x with
  | .error e => .error e
  | .ok xcol =>
    match colBounds xcol with
    | .error e => .error e
    | .ok bdsX =>
      match lookupCol data y with
      | .error e => .error e
      | .ok ycol =>
        match colBounds ycol with
        | .error e => .error e
        | .ok bdsY =>
          .ok (jointCombined x y hue show_x show_y opacity padding_scalar
            maxbins hist_height bdsX bdsY)

/-- Lines 243-320 of the source: build the scatter layer, the two marginal
density lines, and concatenate per `show_x`/`show_y`, given the (min, max)
bounds of the two columns. -/
def cleanCombined (x y : String) (hue : Option String) (show_x show_y : Bool)
    (opacity padding_scalar bandwidth_scalar : ℚ)
    (line_height top_spacing right_spacing : ℤ)
    (bdsX bdsY : ℚ × ℚ) : Layout :=
  let x_diff := bdsX.2 - bdsX.1
  let y_diff := bdsY.2 - bdsY.1
  let xscale : Scale := ⟨paddedDomain bdsX.1 bdsX.2 padding_scalar⟩
  let yscale : Scale := ⟨paddedDomain bdsY.1 bdsY.2 padding_scalar⟩
  let hueChannel : Option String := hue.map (fun hn => hn ++ ":N")
  let groupbyCfg : Option (List String) := hue.map (fun hn => [hn])
  let points : Layer := .points
    { x := x, xscale := xscale, y := y, yscale := yscale, colorField := hueChannel }
  let lineAxis : AxisConfig :=
    { labels := false, tickOpacity := 0, domainLine := false, grid := false }
  let top_line : Layer := .densityLine
    { cfg := { density := x, bandwidth := x_diff / bandwidth_scalar, counts := true,
               extent := xscale.domain, steps := 200, groupby := groupbyCfg },
      markOpacity := opacity, valueScale := xscale, valueAxis := lineAxis,
      densityAxis := lineAxis, colorField := hueChannel,
      height := some line_height }
  let right_line : Layer := .densityLine
    { cfg := { density := y, bandwidth := y_diff / bandwidth_scalar, counts := true,
               extent := yscale.domain, steps := 200, groupby := groupbyCfg },
      markOpacity := opacity, valueScale := yscale, valueAxis := lineAxis,
      densityAxis := lineAxis, colorField := hueChannel,
      orderField := some "value:Q", width := some line_height }
  if show_x && show_y then
    .vconcat (.leaf top_line)
      (.hconcat (.leaf points) (.leaf right_line) (some right_spacing))
      (some top_spacing)
  else if show_x && !show_y then
    .vconcat (.leaf top_line) (.leaf points) (some top_spacing)
  else if !show_x && show_y then
    .hconcat (.leaf points) (.leaf right_line) (some right_spacing)
  else
    .leaf points

/-- `clean_jointplot` (scatter.py lines 177-325). -/
def clean_jointplot (x y : String) (data : DataFrame) (hue : Option String)
    (show_x show_y : Bool) (opacity padding_scalar bandwidth_scalar : ℚ)
    (line_height top_spacing right_spacing : ℤ)
    (apply_configure_view : Bool) : Except JointError Chart :=
  match lookupCol data x with
  | .error e => .error e
  | .ok xcol =>
    match colBounds xcol with
    | .error e => .error e
    | .ok bdsX =>
      match lookupCol data y with
      | .error e => .error e
      | .ok ycol =>
        match colBounds ycol with
        | .error e => .error e
        | .ok bdsY =>
          .ok { layout := cleanCombined x y hue show_x show_y opacity
                  padding_scalar bandwidth_scalar line_height top_spacing
                  right_spacing bdsX bdsY,
                configureViewStrokeWidth :=
                  if apply_configure_view then some 0 else none }

/-! Accessors over the layout tree, used to state the specification's
properties about the returned charts. -/

/-- The first (and, for these composers, only) scatter layer of a layout. -/
def Layout.firstPoints : Layout → Option PointsLayer
  | .leaf (.points pl) => some pl
  | .leaf _ => none
  | .vconcat a b _ => (a.firstPoints).orElse (fun _ => b.firstPoints)
  | .hconcat a b _ => (a.firstPoints).orElse (fun _ => b.firstPoints)

/-- All density-line marginal layers, in layout order (top before right). -/
def Layout.densityLayers : Layout → List LineLayer
  | .leaf (.densityLine l) => [l]
  | .leaf _ => []
  | .vconcat a b _ => a.densityLayers ++ b.densityLayers
  | .hconcat a b _ => a.densityLayers ++ b.densityLayers

/-- All histogram marginal layers, in layout order (top before right). -/
def Layout.histLayers : Layout → List HistLayer
  | .leaf (.histArea hl) => [hl]
  | .leaf _ => []
  | .vconcat a b _ => a.histLayers ++ b.histLayers
  | .hconcat a b _ => a.histLayers ++ b.histLayers

/-- The axis configurations of a single layer. -/
def Layer.axisConfigs : Layer → List AxisConfig
  | .points pl => [pl.xaxis, pl.yaxis]
  | .densityLine l => [l.valueAxis, l.densityAxis]
  | .histArea hl => [hl.binAxis, hl.countAxis]

/-- The axis configurations of every sub-layer of a layout. -/
def Layout.axisConfigs : Layout → List AxisConfig
  | .leaf l => l.axisConfigs
  | .vconcat a b _ => a.axisConfigs ++ b.axisConfigs
  | .hconcat a b _ => a.axisConfigs ++ b.axisConfigs

/-- An axis configuration with labels, ticks, domain line and grid all
removed. -/
def strippedAxis (a : AxisConfig) : Bool :=
  !a.labels && decide (a.tickOpacity = 0) && !a.domainLine && !a.grid

/-- Whether a composer result keeps axis domain lines or grid lines on some
sub-layer. -/
def chartKeepsAxisDecor : Except JointError Chart → Bool
  | .ok cc => cc.layout.axisConfigs.any (fun a => a.domainLine || a.grid)
  | .error _ => false

/-- Whether a composer call returned a chart (as opposed to raising). -/
def composerAccepts : Except JointError Chart → Bool
  | .ok _ => true
  | .error _ => false

/-! Example data used by witnesses and counterexamples. -/

/-- The spec's end-to-end example dataset: `x=[1,2,3,4,5]`, `y=[5,4,3,2,1]`. -/
def exDF : DataFrame :=
  ⟨[("x", [.num 1, .num 2, .num 3, .num 4, .num 5]),
    ("y", [.num 5, .num 4, .num 3, .num 2, .num 1])]⟩

/-- The `x` column of `exDF`. -/
def exXcol : Column := [.num 1, .num 2, .num 3, .num 4, .num 5]

/-- The `y` column of `exDF`. -/
def exYcol : Column := [.num 5, .num 4, .num 3, .num 2, .num 1]

/-- A dataframe with zero rows. -/
def exEmptyDF : DataFrame := ⟨[("x", []), ("y", [])]⟩

/-- A dataframe whose `x` column holds a non-numeric value. -/
def exBadDF : DataFrame :=
  ⟨[("x", [.num 1, .str "a"]), ("y", [.num 2, .num 3])]⟩

/-- A dataframe whose `x` column is constant. -/
def exConstDF : DataFrame :=
  ⟨[("x", [.num 7, .num 7, .num 7]), ("y", [.num 1, .num 2, .num 3])]⟩

/-! Helper lemmas. -/

/-- Successful evaluation of `clean_jointplot` given the column bounds. -/
theorem clean_jointplot_ok_eq (x y : String) (df : DataFrame) (xc yc : Column)
    (hue : Option String) (sx sy : Bool) (op p bw : ℚ) (lh ts rs : ℤ)
    (acv : Bool) (bX bY : ℚ × ℚ)
    (hx : lookupCol df x = .ok xc) (hbx : colBounds xc = .ok bX)
    (hy : lookupCol df y = .ok yc) (hby : colBounds yc = .ok bY) :
    clean_jointplot x y df hue sx sy op p bw lh ts rs acv =
      .ok { layout := cleanCombined x y hue sx sy op p bw lh ts rs bX bY,
            configureViewStrokeWidth := if acv then some 0 else none } := by
  simp only [clean_jointplot, hx, hbx, hy, hby]

/-- Successful evaluation of `jointplot` given the column bounds. -/
theorem jointplot_ok_eq (x y : String) (df : DataFrame) (xc yc : Column)
    (hue colr : Option String) (sx sy : Bool) (op p : ℚ) (mb : ℕ) (hh : ℤ)
    (bX bY : ℚ × ℚ)
    (hx : lookupCol df x = .ok xc) (hbx : colBounds xc = .ok bX)
    (hy : lookupCol df y = .ok yc) (hby : colBounds yc = .ok bY) :
    jointplot x y df hue colr sx sy op p mb hh =
      .ok (jointCombined x y hue sx sy op p mb hh bX bY) := by
  simp only [jointplot, hx, hbx, hy, hby]

/-- The scatter layer `cleanCombined` places in each of its four shapes. -/
theorem cleanCombined_firstPoints (x y : String) (hue : Option String)
    (sx sy : Bool) (op p bw : ℚ) (lh ts rs : ℤ) (bX bY : ℚ × ℚ) :
    (cleanCombined x y hue sx sy op p bw lh ts rs bX bY).firstPoints =
      some { x := x, xscale := ⟨paddedDomain bX.1 bX.2 p⟩,
             y := y, yscale := ⟨paddedDomain bY.1 bY.2 p⟩,
             colorField := hue.map (fun hn => hn ++ ":N") } := by
  cases sx <;> cases sy <;> rfl

/-- A successful `List.lookup` pins a member of the association list. -/
theorem mem_of_lookup_eq_some {l : List (String × Column)} {a : String}
    {b : Column} (h : l.lookup a = some b) : (a, b) ∈ l := by
  induction l with
  | nil => simp [List.lookup] at h
  | cons hd tl ih =>
    rw [List.lookup] at h
    cases hk : a == hd.1 with
    | true =>
      rw [hk] at h
      cases h
      have ha : a = hd.1 := beq_iff_eq.mp hk
      rw [ha]
      simp
    | false =>
      rw [hk] at h
      exact List.mem_cons_of_mem _ (ih h)

/-- `colNums` preserves length. -/
theorem colNums_length {c : Column} {qs : List ℚ} (h : colNums c = some qs) :
    qs.length = c.length := by
  induction c generalizing qs with
  | nil => simp [colNums] at h; simp [h]
  | cons v vs ih =>
    rw [colNums] at h
    cases hv : v.toNum with
    | none => rw [hv] at h; simp at h
    | some q =>
      rw [hv] at h
      cases hvs : colNums vs with
      | none => rw [hvs] at h; simp at h
      | some qs0 =>
        rw [hvs] at h
        cases h
        simp [ih hvs]

/-- A column that is not coercible has no numeric reading. -/
theorem colNums_eq_none_of_not_coercible {c : Column}
    (h : c.coercible = false) : colNums c = none := by
  unfold Column.coercible at h
  exact Option.not_isSome_iff_eq_none.mp (by simp [h])

/-- `colBounds` on a non-coercible column is the non-numeric error. -/
theorem colBounds_nonNumeric {c : Column} (h : c.coercible = false) :
    colBounds c = .error .nonNumericColumn := by
  unfold colBounds
  rw [colNums_eq_none_of_not_coercible h]

/-- `colBounds` on a non-empty coercible column succeeds. -/
theorem colBounds_ok_of_coercible {c : Column} (hne : c ≠ [])
    (h : c.coercible = true) : ∃ mn mx, colBounds c = .ok (mn, mx) := by
  unfold Column.coercible at h
  obtain ⟨qs, hqs⟩ := Option.isSome_iff_exists.mp h
  have hlen : qs.length = c.length := colNums_length hqs
  cases qs with
  | nil =>
    exfalso
    exact hne (List.length_eq_zero.mp (hlen.symm.trans rfl))
  | cons q qs0 =>
    refine ⟨qs0.foldl min q, qs0.foldl max q, ?_⟩
    unfold colBounds
    rw [hqs]
    rfl

/-- A non-coercible column is non-empty. -/
theorem ne_nil_of_not_coercible {c : Column} (h : c.coercible = false) :
    c ≠ [] := by
  intro hc
  subst hc
  simp [Column.coercible, colNums] at h

/-- Numeric reading of a constant numeric column. -/
theorem colNums_replicate (n : ℕ) (v : ℚ) :
    colNums (List.replicate n (Value.num v)) = some (List.replicate n v) := by
  induction n with
  | zero => rfl
  | succ k ih => simp [List.replicate, colNums, ih, Value.toNum]

/-- Folding `min` over copies of a value is that value. -/
theorem foldl_min_replicate (n : ℕ) (v : ℚ) :
    (List.replicate n v).foldl min v = v := by
  induction n with
  | zero => rfl
  | succ k ih => simp [List.replicate, List.foldl, ih]

/-- Folding `max` over copies of a value is that value. -/
theorem foldl_max_replicate (n : ℕ) (v : ℚ) :
    (List.replicate n v).foldl max v = v := by
  induction n with
  | zero => rfl
  | succ k ih => simp [List.replicate, List.foldl, ih]

/-- Bounds of a constant numeric column: min and max are the value itself. -/
theorem colBounds_replicate (n : ℕ) (v : ℚ) :
    colBounds (List.replicate (n + 1) (Value.num v)) = .ok (v, v) := by
  unfold colBounds
  rw [colNums_replicate]
  simp [List.replicate, listMin, listMax, foldl_min_replicate,
    foldl_max_replicate]

/-! Claim theorems. -/

/-- C1: for every dataset and column pair, the layout returned by the
joint-plot composers has exactly the shape determined by the two marginal
flags: both flags false gives the single main point layer; both true gives
a vertical stack whose first child is the top marginal and whose second
child is a horizontal concat of the main plot followed by the right
marginal; exactly one flag true gives the corresponding two-panel pair. -/
theorem joint_composition_shape (x y : String) (df : DataFrame)
    (xc yc : Column) (hue colr : Option String) (sx sy : Bool)
    (op p bw op2 p2 : ℚ) (lh ts rs hh : ℤ) (mb : ℕ) (acv : Bool)
    (bX bY : ℚ × ℚ)
    (hx : lookupCol df x = .ok xc) (hbx : colBounds xc = .ok bX)
    (hy : lookupCol df y = .ok yc) (hby : colBounds yc = .ok bY) :
    ∃ cc lj,
      clean_jointplot x y df hue sx sy op p bw lh ts rs acv = .ok cc ∧
      jointplot x y df hue colr sx sy op2 p2 mb hh = .ok lj ∧
      (match sx, sy with
       | false, false =>
           (∃ pl, cc.layout = .leaf (.points pl)) ∧
           (∃ pl, lj = .leaf (.points pl))
       | true, true =>
           (∃ t m r, cc.layout = .vconcat (.leaf (.densityLine t))
               (.hconcat (.leaf (.points m)) (.leaf (.densityLine r))
                 (some rs)) (some ts) ∧
             t.cfg.density = x ∧ r.cfg.density = y ∧ m.x = x ∧ m.y = y) ∧
           (∃ t m r, lj = .vconcat (.leaf (.histArea t))
               (.hconcat (.leaf (.points m)) (.leaf (.histArea r)) none)
               none ∧
             t.field = x ∧ r.field = y ∧ m.x = x ∧ m.y = y)
       | true, false =>
           (∃ t m, cc.layout = .vconcat (.leaf (.densityLine t))
               (.leaf (.points m)) (some ts) ∧ t.cfg.density = x) ∧
           (∃ t m, lj = .vconcat (.leaf (.histArea t)) (.leaf (.points m))
               none ∧ t.field = x)
       | false, true =>
           (∃ m r, cc.layout = .hconcat (.leaf (.points m))
               (.leaf (.densityLine r)) (some rs) ∧ r.cfg.density = y) ∧
           (∃ m r, lj = .hconcat (.leaf (.points m)) (.leaf (.histArea r))
               none ∧ r.field = y)) := by
  refine ⟨_, _, clean_jointplot_ok_eq x y df xc yc hue sx sy op p bw lh ts rs
    acv bX bY hx hbx hy hby,
    jointplot_ok_eq x y df xc yc hue colr sx sy op2 p2 mb hh bX bY
      hx hbx hy hby, ?_⟩
  cases sx <;> cases sy <;>
    simp only [cleanCombined, jointCombined, Bool.and_self, Bool.and_false,
      Bool.and_true, Bool.false_and, Bool.true_and, Bool.not_false,
      Bool.not_true, if_true, if_false, Bool.false_eq_true, ite_false,
      ite_true]
  · exact ⟨⟨_, rfl⟩, ⟨_, rfl⟩⟩
  · exact ⟨⟨_, _, rfl, rfl⟩, ⟨_, _, rfl, rfl⟩⟩
  · exact ⟨⟨_, _, rfl, rfl⟩, ⟨_, _, rfl, rfl⟩⟩
  · exact ⟨⟨_, _, _, rfl, rfl, rfl, rfl, rfl⟩,
      ⟨_, _, _, rfl, rfl, rfl, rfl, rfl⟩⟩

/-- C1 witness: the shape theorem applied to the spec's example dataset with
both marginals shown. -/
theorem joint_composition_shape_witness :
    lookupCol exDF "x" = .ok exXcol ∧ colBounds exXcol = .ok (1, 5) ∧
    lookupCol exDF "y" = .ok exYcol ∧ colBounds exYcol = .ok (1, 5) ∧
    (∃ cc lj,
      clean_jointplot "x" "y" exDF none true true (6/10) (1/5) 10 50 (-40) 0
        true = .ok cc ∧
      jointplot "x" "y" exDF none none true true (6/10) (1/20) 30 50 =
        .ok lj ∧
      ((∃ t m r, cc.layout = .vconcat (.leaf (.densityLine t))
           (.hconcat (.leaf (.points m)) (.leaf (.densityLine r)) (some 0))
           (some (-40)) ∧
         t.cfg.density = "x" ∧ r.cfg.density = "y" ∧ m.x = "x" ∧
         m.y = "y") ∧
       (∃ t m r, lj = .vconcat (.leaf (.histArea t))
           (.hconcat (.leaf (.points m)) (.leaf (.histArea r)) none) none ∧
         t.field = "x" ∧ r.field = "y" ∧ m.x = "x" ∧ m.y = "y"))) :=
  ⟨by decide, by decide, by decide, by decide,
    joint_composition_shape "x" "y" exDF exXcol exYcol none none true true
      (6/10) (1/5) 10 (6/10) (1/20) 50 (-40) 0 50 30 true (1, 5) (1, 5)
      (by decide) (by decide) (by decide) (by decide)⟩

/-- C2: for every non-empty numeric column with positive range and padding
fraction `p ≥ 0`, the padded axis domain the composer gives the main layer
is `[min - p*range, max + p*range]`; its width is `(1 + 2p) * range` and it
is centered around the data; for `x = [1..5]` and `p = 1/5` the x-domain is
`[1/5, 29/5]` (the spec's `[0.2, 5.8]`). -/
theorem clean_jointplot_padded_domain (x y : String) (df : DataFrame)
    (xc yc : Column) (hue : Option String) (sx sy : Bool) (op p bw : ℚ)
    (lh ts rs : ℤ) (acv : Bool) (bX bY : ℚ × ℚ)
    (hx : lookupCol df x = .ok xc) (hbx : colBounds xc = .ok bX)
    (hy : lookupCol df y = .ok yc) (hby : colBounds yc = .ok bY)
    (hr : 0 < bX.2 - bX.1) (hp : 0 ≤ p) :
    ∃ cc pl,
      clean_jointplot x y df hue sx sy op p bw lh ts rs acv = .ok cc ∧
      cc.layout.firstPoints = some pl ∧
      pl.xscale.domain = paddedDomain bX.1 bX.2 p ∧
      (paddedDomain bX.1 bX.2 p).2 - (paddedDomain bX.1 bX.2 p).1 =
        (1 + 2 * p) * (bX.2 - bX.1) ∧
      bX.1 - (paddedDomain bX.1 bX.2 p).1 =
        (paddedDomain bX.1 bX.2 p).2 - bX.2 ∧
      paddedDomain 1 5 (1/5) = (1/5, 29/5) := by
  refine ⟨_, _, clean_jointplot_ok_eq x y df xc yc hue sx sy op p bw lh ts rs
      acv bX bY hx hbx hy hby,
    cleanCombined_firstPoints x y hue sx sy op p bw lh ts rs bX bY,
    rfl, ?_, ?_, by simp only [paddedDomain, Prod.mk.injEq]; norm_num⟩
  · simp only [paddedDomain]
    ring
  · simp only [paddedDomain]
    ring

/-- C2 witness: padded-domain theorem applied to the spec's end-to-end
example `x=[1,2,3,4,5]`, `p = 1/5`. -/
theorem clean_jointplot_padded_domain_witness :
    colBounds exXcol = .ok (1, 5) ∧ (0:ℚ) < 5 - 1 ∧ (0:ℚ) ≤ 1/5 ∧
    (∃ cc pl,
      clean_jointplot "x" "y" exDF none true true (6/10) (1/5) 10 50 (-40) 0
        true = .ok cc ∧
      cc.layout.firstPoints = some pl ∧
      pl.xscale.domain = paddedDomain 1 5 (1/5) ∧
      (paddedDomain 1 5 (1/5)).2 - (paddedDomain 1 5 (1/5)).1 =
        (1 + 2 * (1/5)) * (5 - 1) ∧
      1 - (paddedDomain 1 5 (1/5)).1 = (paddedDomain 1 5 (1/5)).2 - 5 ∧
      paddedDomain 1 5 (1/5) = (1/5, 29/5)) :=
  ⟨by decide, by norm_num, by norm_num,
    clean_jointplot_padded_domain "x" "y" exDF exXcol exYcol none true true
      (6/10) (1/5) 10 50 (-40) 0 true (1, 5) (1, 5)
      (by decide) (by decide) (by decide) (by decide)
      (by norm_num) (by norm_num)⟩

/-- C3: for every dataset with zero rows the composer fails with the
empty-dataset error, and for every dataset whose x or y column cannot be
coerced to floating point it fails with the non-numeric-column error. -/
theorem clean_jointplot_errors (x y : String) (df : DataFrame)
    (xc yc : Column) (hue : Option String) (sx sy : Bool) (op p bw : ℚ)
    (lh ts rs : ℤ) (acv : Bool)
    (hx : lookupCol df x = .ok xc) (hy : lookupCol df y = .ok yc)
    (hu : df.uniform = true)
    (h0 : df.nrows = 0 ∨ xc.coercible = false ∨ yc.coercible = false) :
    clean_jointplot x y df hue sx sy op p bw lh ts rs acv =
      .error (if df.nrows = 0 then JointError.emptyDataset
              else JointError.nonNumericColumn) := by
  have hlen : ∀ {n : String} {c : Column}, lookupCol df n = .ok c →
      c.length = df.nrows := by
    intro n c hc
    unfold lookupCol at hc
    cases hl : df.cols.lookup n with
    | none => rw [hl] at hc; cases hc
    | some c0 =>
      rw [hl] at hc
      cases hc
      have hmem := mem_of_lookup_eq_some hl
      have := List.all_eq_true.mp hu _ hmem
      simpa using this
  by_cases hz : df.nrows = 0
  · have hxe : xc = [] :=
      List.length_eq_zero.mp ((hlen hx).trans hz)
    subst hxe
    rw [if_pos hz]
    unfold clean_jointplot
    rw [hx]
    rfl
  · rw [if_neg hz]
    cases hxc : xc.coercible with
    | false =>
      simp only [clean_jointplot, hx, colBounds_nonNumeric hxc]
    | true =>
      have hyc : yc.coercible = false := by
        rcases h0 with h0 | h0 | h0
        · exact absurd h0 hz
        · rw [h0] at hxc; cases hxc
        · exact h0
      have hxne : xc ≠ [] := by
        intro he
        apply hz
        rw [← hlen hx, he]
        rfl
      obtain ⟨mn, mx, hok⟩ := colBounds_ok_of_coercible hxne hxc
      simp only [clean_jointplot, hx, hok, hy, colBounds_nonNumeric hyc]

/-- C3 witness: a zero-row dataframe fails with the empty-dataset error and
a dataframe with a non-numeric column fails with the non-numeric error. -/
theorem clean_jointplot_errors_witness :
    exEmptyDF.uniform = true ∧ exEmptyDF.nrows = 0 ∧
    exBadDF.uniform = true ∧ Column.coercible [.num 1, .str "a"] = false ∧
    clean_jointplot "x" "y" exEmptyDF none true true (6/10) (1/5) 10 50
      (-40) 0 true =
      .error (if exEmptyDF.nrows = 0 then JointError.emptyDataset
              else JointError.nonNumericColumn) ∧
    clean_jointplot "x" "y" exBadDF none true true (6/10) (1/5) 10 50
      (-40) 0 true =
      .error (if exBadDF.nrows = 0 then JointError.emptyDataset
              else JointError.nonNumericColumn) :=
  ⟨by decide, by decide, by decide, by decide,
    clean_jointplot_errors "x" "y" exEmptyDF [] [] none true true
      (6/10) (1/5) 10 50 (-40) 0 true (by decide) (by decide) (by decide)
      (Or.inl (by decide)),
    clean_jointplot_errors "x" "y" exBadDF [.num 1, .str "a"]
      [.num 2, .num 3] none true true (6/10) (1/5) 10 50 (-40) 0 true
      (by decide) (by decide) (by decide) (Or.inr (Or.inl (by decide)))⟩

/-- C4: for a non-empty dataset whose x column is constant, the computed
range is 0, the composer does not raise, and the padded x-domain
degenerates to the single point `[min, min]`. -/
theorem clean_jointplot_constant_column (x y : String) (df : DataFrame)
    (n : ℕ) (v : ℚ) (yc : Column) (hue : Option String) (sx sy : Bool)
    (op p bw : ℚ) (lh ts rs : ℤ) (acv : Bool) (bY : ℚ × ℚ)
    (hx : lookupCol df x = .ok (List.replicate (n + 1) (Value.num v)))
    (hy : lookupCol df y = .ok yc) (hby : colBounds yc = .ok bY) :
    colBounds (List.replicate (n + 1) (Value.num v)) = .ok (v, v) ∧
    ∃ cc pl,
      clean_jointplot x y df hue sx sy op p bw lh ts rs acv = .ok cc ∧
      cc.layout.firstPoints = some pl ∧
      pl.xscale.domain = (v, v) := by
  refine ⟨colBounds_replicate n v, _, _,
    clean_jointplot_ok_eq x y df (List.replicate (n + 1) (Value.num v)) yc
      hue sx sy op p bw lh ts rs acv (v, v) bY hx (colBounds_replicate n v)
      hy hby,
    cleanCombined_firstPoints x y hue sx sy op p bw lh ts rs (v, v) bY, ?_⟩
  simp [paddedDomain]

/-- C4 witness: constant-column theorem applied to a dataframe whose x
column is `[7, 7, 7]`. -/
theorem clean_jointplot_constant_column_witness :
    lookupCol exConstDF "x" = .ok (List.replicate 3 (Value.num 7)) ∧
    (colBounds (List.replicate 3 (Value.num 7)) = .ok (7, 7) ∧
     ∃ cc pl,
       clean_jointplot "x" "y" exConstDF none true true (6/10) (1/5) 10 50
         (-40) 0 true = .ok cc ∧
       cc.layout.firstPoints = some pl ∧
       pl.xscale.domain = (7, 7)) :=
  ⟨by decide,
    clean_jointplot_constant_column "x" "y" exConstDF 2 7
      [.num 1, .num 2, .num 3] none true true (6/10) (1/5) 10 50 (-40) 0
      true (1, 3) (by decide) (by decide) (by decide)⟩

/-- C5: whenever the composer derives the density bandwidth (it never takes
an explicit one), the bandwidth of the top marginal is the x-axis range
divided by `bandwidth_scalar`, and of the right marginal the y-axis range
divided by `bandwidth_scalar`. -/
theorem clean_jointplot_bandwidth (x y : String) (df : DataFrame)
    (xc yc : Column) (hue : Option String) (sx sy : Bool) (op p bw : ℚ)
    (lh ts rs : ℤ) (acv : Bool) (bX bY : ℚ × ℚ)
    (hx : lookupCol df x = .ok xc) (hbx : colBounds xc = .ok bX)
    (hy : lookupCol df y = .ok yc) (hby : colBounds yc = .ok bY) :
    ∃ cc,
      clean_jointplot x y df hue sx sy op p bw lh ts rs acv = .ok cc ∧
      cc.layout.densityLayers.map (fun l => (l.cfg.density, l.cfg.bandwidth))
        = (if sx then [(x, (bX.2 - bX.1) / bw)] else []) ++
          (if sy then [(y, (bY.2 - bY.1) / bw)] else []) := by
  refine ⟨_, clean_jointplot_ok_eq x y df xc yc hue sx sy op p bw lh ts rs
    acv bX bY hx hbx hy hby, ?_⟩
  cases sx <;> cases sy <;> rfl

/-- C5 witness: with both marginals shown on the example dataset, the two
derived bandwidths are the axis ranges over `bandwidth_scalar`. -/
theorem clean_jointplot_bandwidth_witness :
    colBounds exXcol = .ok (1, 5) ∧ colBounds exYcol = .ok (1, 5) ∧
    (∃ cc,
      clean_jointplot "x" "y" exDF none true true (6/10) (1/5) 10 50 (-40) 0
        true = .ok cc ∧
      cc.layout.densityLayers.map (fun l => (l.cfg.density, l.cfg.bandwidth))
        = (if true then [("x", ((5:ℚ) - 1) / 10)] else []) ++
          (if true then [("y", ((5:ℚ) - 1) / 10)] else [])) :=
  ⟨by decide, by decide,
    clean_jointplot_bandwidth "x" "y" exDF exXcol exYcol none true true
      (6/10) (1/5) 10 50 (-40) 0 true (1, 5) (1, 5)
      (by decide) (by decide) (by decide) (by decide)⟩

/-- C6: each marginal's density transform is configured with the exact
padded axis domain as its extent and evaluates the kernel density estimate
at `steps = 200` equally spaced sample points (the transform's sample-count
parameter, passed at its default value 200). -/
theorem clean_jointplot_density_extent_steps (x y : String) (df : DataFrame)
    (xc yc : Column) (hue : Option String) (sx sy : Bool) (op p bw : ℚ)
    (lh ts rs : ℤ) (acv : Bool) (bX bY : ℚ × ℚ)
    (hx : lookupCol df x = .ok xc) (hbx : colBounds xc = .ok bX)
    (hy : lookupCol df y = .ok yc) (hby : colBounds yc = .ok bY) :
    ∃ cc,
      clean_jointplot x y df hue sx sy op p bw lh ts rs acv = .ok cc ∧
      cc.layout.densityLayers.map (fun l => (l.cfg.extent, l.cfg.steps))
        = (if sx then [(paddedDomain bX.1 bX.2 p, 200)] else []) ++
          (if sy then [(paddedDomain bY.1 bY.2 p, 200)] else []) := by
  refine ⟨_, clean_jointplot_ok_eq x y df xc yc hue sx sy op p bw lh ts rs
    acv bX bY hx hbx hy hby, ?_⟩
  cases sx <;> cases sy <;> rfl

/-- C6 witness: on the example dataset both marginal density transforms use
the padded domains as extent and 200 steps. -/
theorem clean_jointplot_density_extent_steps_witness :
    colBounds exXcol = .ok (1, 5) ∧ colBounds exYcol = .ok (1, 5) ∧
    (∃ cc,
      clean_jointplot "x" "y" exDF none true true (6/10) (1/5) 10 50 (-40) 0
        true = .ok cc ∧
      cc.layout.densityLayers.map (fun l => (l.cfg.extent, l.cfg.steps))
        = (if true then [(paddedDomain 1 5 (1/5), 200)] else []) ++
          (if true then [(paddedDomain 1 5 (1/5), 200)] else [])) :=
  ⟨by decide, by decide,
    clean_jointplot_density_extent_steps "x" "y" exDF exXcol exYcol none
      true true (6/10) (1/5) 10 50 (-40) 0 true (1, 5) (1, 5)
      (by decide) (by decide) (by decide) (by decide)⟩

/-- C7: each marginal histogram of `jointplot` is configured to bin its
column into at most `maxbins` bins whose extent is exactly the padded axis
domain (not the raw data range): the top marginal gets the padded x-domain
and the right marginal the padded y-domain.  The equal-width binning over
that extent is carried out by the renderer from this configuration. -/
theorem jointplot_hist_bins (x y : String) (df : DataFrame)
    (xc yc : Column) (hue colr : Option String) (sx sy : Bool) (op p : ℚ)
    (mb : ℕ) (hh : ℤ) (bX bY : ℚ × ℚ)
    (hx : lookupCol df x = .ok xc) (hbx : colBounds xc = .ok bX)
    (hy : lookupCol df y = .ok yc) (hby : colBounds yc = .ok bY) :
    ∃ lj,
      jointplot x y df hue colr sx sy op p mb hh = .ok lj ∧
      lj.histLayers.map (fun hl => (hl.field, hl.bin.maxbins, hl.bin.extent))
        = (if sx then [(x, mb, paddedDomain bX.1 bX.2 p)] else []) ++
          (if sy then [(y, mb, paddedDomain bY.1 bY.2 p)] else []) := by
  refine ⟨_, jointplot_ok_eq x y df xc yc hue colr sx sy op p mb hh bX bY
    hx hbx hy hby, ?_⟩
  cases sx <;> cases sy <;> rfl

/-- C7 witness: on the example dataset with both marginals, the two
histograms bin with `maxbins = 30` over the padded domains. -/
theorem jointplot_hist_bins_witness :
    colBounds exXcol = .ok (1, 5) ∧ colBounds exYcol = .ok (1, 5) ∧
    (∃ lj,
      jointplot "x" "y" exDF none none true true (6/10) (1/20) 30 50 =
        .ok lj ∧
      lj.histLayers.map (fun hl => (hl.field, hl.bin.maxbins, hl.bin.extent))
        = (if true then [("x", 30, paddedDomain 1 5 (1/20))] else []) ++
          (if true then [("y", 30, paddedDomain 1 5 (1/20))] else [])) :=
  ⟨by decide, by decide,
    jointplot_hist_bins "x" "y" exDF exXcol exYcol none none true true
      (6/10) (1/20) 30 50 (1, 5) (1, 5)
      (by decide) (by decide) (by decide) (by decide)⟩

/-- C8 counterexample: with the border-stripping flag set, the returned
layout still contains a sub-layer (the main scatter layer) whose axis
configuration keeps its domain line and grid, so the claim that the flag
removes them from every sub-layer is false. -/
theorem clean_jointplot_strip_cex :
    chartKeepsAxisDecor (clean_jointplot "x" "y" exDF none true true (6/10)
      (1/5) 10 50 (-40) 0 true) = true := by
  rfl

/-- C8 (amended): with the flag set, the composer applies a top-level view
configuration with stroke width 0; the marginal density layers' axes have
labels, ticks, domain lines and grid lines removed, but unconditionally
(whatever the flag), while the main scatter layer's axes keep the default
decorations; with the flag unset no top-level view configuration is
applied. -/
theorem clean_jointplot_border_stripping (x y : String) (df : DataFrame)
    (xc yc : Column) (hue : Option String) (sx sy : Bool) (op p bw : ℚ)
    (lh ts rs : ℤ) (acv : Bool) (bX bY : ℚ × ℚ)
    (hx : lookupCol df x = .ok xc) (hbx : colBounds xc = .ok bX)
    (hy : lookupCol df y = .ok yc) (hby : colBounds yc = .ok bY) :
    ∃ cc,
      clean_jointplot x y df hue sx sy op p bw lh ts rs acv = .ok cc ∧
      cc.configureViewStrokeWidth = (if acv then some 0 else none) ∧
      cc.layout.densityLayers.all
        (fun l => strippedAxis l.valueAxis && strippedAxis l.densityAxis) =
        true ∧
      (cc.layout.firstPoints.all
        (fun pl => pl.xaxis == ({} : AxisConfig) &&
          pl.yaxis == ({} : AxisConfig))) = true := by
  refine ⟨_, clean_jointplot_ok_eq x y df xc yc hue sx sy op p bw lh ts rs
    acv bX bY hx hbx hy hby, rfl, ?_, ?_⟩
  · cases sx <;> cases sy <;> rfl
  · cases sx <;> cases sy <;> rfl

/-- C8 (amended) witness: with the flag unset on the example dataset, no
top-level view configuration is applied yet the marginal axes are already
stripped and the scatter axes are not. -/
theorem clean_jointplot_border_stripping_witness :
    colBounds exXcol = .ok (1, 5) ∧
    (∃ cc,
      clean_jointplot "x" "y" exDF none true true (6/10) (1/5) 10 50 (-40) 0
        false = .ok cc ∧
      cc.configureViewStrokeWidth = (if false then some 0 else none) ∧
      cc.layout.densityLayers.all
        (fun l => strippedAxis l.valueAxis && strippedAxis l.densityAxis) =
        true ∧
      (cc.layout.firstPoints.all
        (fun pl => pl.xaxis == ({} : AxisConfig) &&
          pl.yaxis == ({} : AxisConfig))) = true) :=
  ⟨by decide,
    clean_jointplot_border_stripping "x" "y" exDF exXcol exYcol none true
      true (6/10) (1/5) 10 50 (-40) 0 false (1, 5) (1, 5)
      (by decide) (by decide) (by decide) (by decide)⟩

/-- C9 counterexample: a call with a negative padding fraction and a
negative marginal panel size returns a composed chart normally instead of
raising any configuration error. -/
theorem clean_jointplot_no_validation_cex :
    composerAccepts (clean_jointplot "x" "y" exDF none true true (6/10)
      (-1) 10 (-5) (-40) 0 true) = true := by
  rfl

/-- C9 (amended): the composer performs no configuration validation: for
any negative padding fraction and negative marginal panel size it still
returns a layout (no configuration error type exists in the code, and
there is no marginal-kind parameter). -/
theorem clean_jointplot_no_validation (x y : String) (df : DataFrame)
    (xc yc : Column) (hue : Option String) (sx sy : Bool) (op p bw : ℚ)
    (lh ts rs : ℤ) (acv : Bool) (bX bY : ℚ × ℚ)
    (hx : lookupCol df x = .ok xc) (hbx : colBounds xc = .ok bX)
    (hy : lookupCol df y = .ok yc) (hby : colBounds yc = .ok bY)
    (hp : p < 0) (hlh : lh < 0) :
    ∃ cc, clean_jointplot x y df hue sx sy op p bw lh ts rs acv = .ok cc :=
  ⟨_, clean_jointplot_ok_eq x y df xc yc hue sx sy op p bw lh ts rs acv
    bX bY hx hbx hy hby⟩

/-- C9 (amended) witness: the no-validation theorem at padding `-1` and
marginal size `-5`. -/
theorem clean_jointplot_no_validation_witness :
    colBounds exXcol = .ok (1, 5) ∧ (-1 : ℚ) < 0 ∧ (-5 : ℤ) < 0 ∧
    (∃ cc, clean_jointplot "x" "y" exDF none true true (6/10) (-1) 10 (-5)
      (-40) 0 true = .ok cc) :=
  ⟨by decide, by norm_num, by decide,
    clean_jointplot_no_validation "x" "y" exDF exXcol exYcol none true true
      (6/10) (-1) 10 (-5) (-40) 0 true (1, 5) (1, 5)
      (by decide) (by decide) (by decide) (by decide)
      (by norm_num) (by decide)⟩

/-- C10: the `color` parameter of `jointplot` has no effect: for any two
color values (all other arguments equal, any `hue`), the results are
identical, because the source never reads the parameter. -/
theorem jointplot_color_unused (x y : String) (df : DataFrame)
    (hue c1 c2 : Option String) (sx sy : Bool) (op p : ℚ) (mb : ℕ)
    (hh : ℤ) :
    jointplot x y df hue c1 sx sy op p mb hh =
      jointplot x y df hue c2 sx sy op p mb hh := rfl

end Cosilico
